import Mathlib

/-!
Verification development for the mdr live-preview server (src/main.rs).

The program is a watch-render-broadcast pipeline: a polling change detector
(check_file), a markdown-to-HTML renderer (render_markdown, delegating the
conversion to the pulldown-cmark crate), a tokio watch channel used as the
broadcast channel, and one websocket handler per client (handle_websocket).
The definitions below are a shallow embedding of that pipeline: file-system
and timer effects are made explicit as per-tick observations, and machine
timestamps are modelled as naturals (nanoseconds since the Unix epoch, the
sentinel SystemTime::UNIX_EPOCH being 0; Rust compares SystemTime values for
equality, which corresponds to equality on these naturals).
-/

namespace Mdr

/-! ### Renderer (render_markdown, src/main.rs 82-94) -/

/-- Number of leading ATX marker characters of a line. -/
def countHashes : List Char → Nat
  | '#' :: rest => countHashes rest + 1
  | _ => 0

/-- HTML body-text escaping as performed by pulldown-cmark's escape module. -/
def escapeChar (c : Char) : String :=
  if c = '&' then "&amp;"
  else if c = '<' then "&lt;"
  else if c = '>' then "&gt;"
  else if c = '"' then "&quot;"
  else String.singleton c

def escapeHtml (s : String) : String :=
  String.join (s.toList.map escapeChar)

/-- Modelled from the spec and the external pulldown-cmark crate, which is
called by render_markdown (src/main.rs 87-89: Parser::new on the file content,
then html::push_html) and is not part of this repository. The model covers
the block structure exercised here: a line of 1 to 6 ATX markers followed by
a space renders as a heading, any other non-empty line as a paragraph; the
HTML writer closes every block tag with a newline character. Soft-break
joining of multi-line paragraphs and inline markup are outside the modelled
fragment. -/
def renderBlock (cs : List Char) : String :=
  if cs = [] then ""
  else
    let n := countHashes cs
    if 1 ≤ n ∧ n ≤ 6 then
      match cs.drop n with
      | [] => "<h" ++ toString n ++ "></h" ++ toString n ++ ">\n"
      | ' ' :: text =>
          "<h" ++ toString n ++ ">" ++ escapeHtml (String.mk text) ++
            "</h" ++ toString n ++ ">\n"
      | _ => "<p>" ++ escapeHtml (String.mk cs) ++ "</p>\n"
    else "<p>" ++ escapeHtml (String.mk cs) ++ "</p>\n"

/-- Split a character sequence at newline characters. -/
def splitLines : List Char → List (List Char)
  | [] => [[]]
  | '\n' :: rest => [] :: splitLines rest
  | c :: rest =>
    match splitLines rest with
    | [] => [[c]]
    | l :: ls => (c :: l) :: ls

/-- The pure conversion step of render_markdown (src/main.rs 87-89): markdown
text in, HTML markup out. A function of the input string alone. -/
def renderHtml (s : String) : String :=
  String.join ((splitLines s.toList).map renderBlock)

/-- render_markdown (src/main.rs 82-94) opens and reads the watched file,
converts the content with pulldown-cmark, and sends the HTML on the watch
channel. The argument is the outcome of the file read: `none` when File::open
or read_to_string fails (the function then returns that error via `?`),
`some content` on success. The conversion itself is total, and
Sender::send only fails when every receiver has been dropped, which cannot
happen while the axum router (which holds a receiver for the lifetime of the
server) is alive; so on a successful read the function returns the HTML. -/
def render_markdown : Option String → Except Unit String
  | none => Except.error ()
  | some content => Except.ok (renderHtml content)

/-! ### Change detector (check_file, src/main.rs 96-111) -/

/-- What one iteration of check_file's loop observes about the file:
either std::fs::metadata / Metadata::modified fails, or it yields a
modification timestamp together with the outcome of the subsequent content
read (`none` = read failure inside render_markdown, `some c` = content c). -/
inductive FileObs where
  | metaErr : FileObs
  | snap (mtime : Nat) (content : Option String) : FileObs

/-- Outcome of one loop iteration of check_file: either the function returns
an error (every `?` in the loop body propagates), or the loop continues with
an updated previous_mtime, having published at most one value. -/
inductive TickOutcome where
  | fatal : TickOutcome
  | cont (previousMtime : Nat) (published : Option String) : TickOutcome

/-- previous_mtime is initialized to SystemTime::UNIX_EPOCH
(src/main.rs 98), modelled as 0. -/
def sentinelMtime : Nat := 0

/-- One iteration of check_file's loop body (src/main.rs 100-110): read the
metadata (fatal on failure), compare the modification time with
previous_mtime; when they differ, run render_markdown (fatal on failure,
since its error is propagated with `?`) and on success publish the HTML and
update previous_mtime; when they are equal, do nothing this tick. -/
def check_file_tick (previousMtime : Nat) (obs : FileObs) : TickOutcome :=
  match obs with
  | FileObs.metaErr => TickOutcome.fatal
  | FileObs.snap mtime content =>
    if previousMtime ≠ mtime then
      match render_markdown content with
      | Except.error _ => TickOutcome.fatal
      | Except.ok html => TickOutcome.cont mtime (some html)
    else TickOutcome.cont previousMtime none

/-- check_file's loop run over a finite schedule of per-tick observations,
starting from a given previous_mtime. Returns the list of published values
in publication order, and `some` final previous_mtime if every tick
succeeded, or `none` if a tick made check_file return an error. -/
def check_file_run : Nat → List FileObs → List String × Option Nat
  | st, [] => ([], some st)
  | st, obs :: rest =>
    match check_file_tick st obs with
    | TickOutcome.fatal => ([], none)
    | TickOutcome.cont st2 pub =>
      let r := check_file_run st2 rest
      (pub.toList ++ r.1, r.2)

/-- The task spawned in main (src/main.rs 163-168): if check_file returns an
error, the error is logged and std::process::exit(1) is called. `some 1` is
that non-zero exit; `none` means the poll loop is still running after the
schedule. -/
def detectorExitCode (st : Nat) (obss : List FileObs) : Option Nat :=
  match (check_file_run st obss).2 with
  | none => some 1
  | some _ => none

/-! ### Broadcast channel (tokio::sync::watch, created at src/main.rs 161)

The channel itself lives in the tokio crate, outside this repository, so its
contract is modelled from the spec (section 4.3) and from tokio's documented
watch semantics: the channel stores only the latest value; each send bumps a
version counter; a receiver holds a watermark of the last version it has
seen; changed() resolves as soon as the current version exceeds the
watermark and advances the watermark; borrow() yields the current value.
Versions are naturals: version 0 is the initial value passed to channel()
(the empty string, src/main.rs 161), and version i+1 holds the i-th
published value. -/

/-- The i-th published value of a run whose publish history is `pubs`. -/
def publishedAt (pubs : List String) (i : Nat) : String :=
  pubs.getD i ""

/-- The value a reader's borrow() yields after the whole history `pubs` has
been published: the latest published value, or the initial empty string when
nothing has been published yet. -/
def currentValue (pubs : List String) : String :=
  pubs.getLastD ""

/-- A reader's observation of the channel, as the list of positions in the
publish history at which its successive changed()/borrow() rounds sampled
the current value: positions are strictly increasing (changed() only
resolves for a version strictly newer than the watermark, then advances the
watermark to what it observed) and within the history. -/
def validObservation (pubs : List String) (vs : List Nat) : Prop :=
  vs.Chain' (· < ·) ∧ ∀ v ∈ vs, v < pubs.length

/-- The rendered values such an observation delivers to its client. -/
def observedValues (pubs : List String) (vs : List Nat) : List String :=
  vs.map (publishedAt pubs)

/-- A watch receiver, reduced to the state that matters: the watermark of the
last seen version. -/
structure WatchReceiver where
  seen : Nat

/-- The receiver returned by channel() in main (src/main.rs 161): the initial
value (version 0) counts as already seen. This receiver is stored in the
axum Extension layer and never itself awaits changed(), so its watermark
stays 0 for the whole run. -/
def initialReceiver : WatchReceiver :=
  WatchReceiver.mk 0

/-- Receiver::clone as performed by the Extension extractor on every
websocket upgrade: per tokio's watch implementation the clone starts from
the watermark of the receiver it was cloned from, not from the current
version. -/
def cloneReceiver (r : WatchReceiver) : WatchReceiver :=
  WatchReceiver.mk r.seen

/-- The first message handle_websocket delivers to a client whose receiver is
`r`, when `pubs` is the publish history at connection time and no further
publish happens before the first changed() resolves: `none` when changed()
blocks (nothing newer than the watermark yet), otherwise the current value,
delivered immediately. -/
def firstMessage (pubs : List String) (r : WatchReceiver) : Option String :=
  if r.seen < pubs.length then some (currentValue pubs) else none

/-! ### Connection handler (handle_websocket, src/main.rs 72-80) -/

/-- Outcome of one ws.send call on the client's websocket. -/
inductive SendResult where
  | ok : SendResult
  | err : SendResult

/-- handle_websocket's loop over a finite schedule of events. Each event is
the outcome of one chan_rx.changed().await: `none` when it returns Err (the
sender was dropped, ending the loop), `some v` when a new value `v` was
observed via borrow(), paired with the transport outcome of the ws.send for
that value. The function returns the values for which a send was attempted.
Per src/main.rs 76-78, a send failure is only logged (`if let Err` around
eprintln) and the loop body then continues to the next changed() await. -/
def handle_websocket : List (Option String × SendResult) → List String
  | [] => []
  | (none, _) :: _ => []
  | (some v, _) :: rest => v :: handle_websocket rest

/-! ### Startup (parse_args and main, src/main.rs 113-168) -/

/-- Default of the --ip option (src/main.rs 128): the loopback address. -/
def defaultIp : String := "127.0.0.1"

/-- Default of the --port option (src/main.rs 136): the conventional HTTP
development port. -/
def defaultPort : String := "8080"

/-- How far main gets before the server starts serving. -/
inductive StartupOutcome where
  | startupError (msg : String) : StartupOutcome
  | serving (host : String) : StartupOutcome

/-- main's startup sequence (src/main.rs 141-160), up to the point where the
channel is created and the server bound: first `ip:port` is parsed as a
SocketAddr (src/main.rs 150-153; `parseOk` abstracts whether that parse
succeeds), then the watched path is checked for existence (src/main.rs
155-157; `fileExists` abstracts Path::exists). Either failure makes main
return Err with the corresponding message before the channel, the poll task,
the router or the listener exist (those are built at src/main.rs 161-189,
after both checks). -/
def mainStartup (parseOk : Bool) (fileExists : Bool) (host : String) :
    StartupOutcome :=
  if parseOk = false then StartupOutcome.startupError "could not parse ip/port"
  else if fileExists = false then StartupOutcome.startupError "file does not exist"
  else StartupOutcome.serving host

/-- Exit status of the process for a given startup outcome: a Rust main
returning Err exits with status 1; when startup succeeds the process keeps
running (no exit yet). -/
def startupExitCode : StartupOutcome → Option Nat
  | StartupOutcome.startupError _ => some 1
  | StartupOutcome.serving _ => none

/-! ### Detector lemmas -/

/-- A tick whose observed modification time equals previous_mtime does
nothing: no publish, state unchanged. -/
theorem check_file_tick_same (st : Nat) (c : Option String) :
    check_file_tick st (FileObs.snap st c) = TickOutcome.cont st none := by
  simp [check_file_tick]

/-- A run in which every tick observes the modification time already
recorded in previous_mtime publishes nothing and keeps the state. -/
theorem check_file_run_const (t : Nat) (cs : List String) :
    check_file_run t (cs.map fun c => FileObs.snap t (some c)) = ([], some t) := by
  induction cs with
  | nil => rfl
  | cons c cs ih => simp [check_file_run, check_file_tick, ih]

/-- Claim C1, counterexample. The claim says a render failure is logged and
polling continues with previous_mtime updated. In check_file
(src/main.rs 105) the error of render_markdown is propagated with the `?`
operator: with previous_mtime 0, a tick observing mtime 5 whose content read
fails makes check_file return the error — the loop does not continue (no
further state), nothing is published, previous_mtime is never updated to 5,
and the spawned task in main exits the process with status 1. -/
theorem render_failure_fatal_cex :
    check_file_tick 0 (FileObs.snap 5 none) = TickOutcome.fatal
    ∧ check_file_run 0 [FileObs.snap 5 none] = ([], none)
    ∧ detectorExitCode 0 [FileObs.snap 5 none] = some 1 :=
  ⟨rfl, rfl, rfl⟩

/-- Claim C1, amended: if render_markdown fails on a tick that observed a
changed modification time, check_file returns that error, so the poll loop
stops, nothing further is published (the channel keeps its previous value
only because the process is going down), previous_mtime is not updated, and
the task wrapper in main (src/main.rs 163-168) logs the error and terminates
the process with exit status 1. -/
theorem render_failure_is_fatal (st m : Nat) (rest : List FileObs)
    (h : st ≠ m) :
    check_file_tick st (FileObs.snap m none) = TickOutcome.fatal
    ∧ check_file_run st (FileObs.snap m none :: rest) = ([], none)
    ∧ detectorExitCode st (FileObs.snap m none :: rest) = some 1 := by
  have h1 : check_file_tick st (FileObs.snap m none) = TickOutcome.fatal := by
    simp [check_file_tick, render_markdown, h]
  refine ⟨h1, ?_, ?_⟩
  · simp [check_file_run, h1]
  · simp [detectorExitCode, check_file_run, h1]

/-- Witness for the amended claim C1 at previous_mtime 0, observed mtime 5,
empty remaining schedule. -/
theorem render_failure_is_fatal_witness :
    (0 : Nat) ≠ 5
    ∧ (check_file_tick 0 (FileObs.snap 5 none) = TickOutcome.fatal
      ∧ check_file_run 0 [FileObs.snap 5 none] = ([], none)
      ∧ detectorExitCode 0 [FileObs.snap 5 none] = some 1) :=
  ⟨by decide, render_failure_is_fatal 0 5 [] (by decide)⟩

/-- Claim C2, counterexample. The claim says a failed forward terminates the
handler's loop. In handle_websocket (src/main.rs 76-78) the send error is
only logged, and the loop goes on to await the next change: after a failed
send of "a" the handler still forwards "b". -/
theorem send_failure_continues_cex :
    handle_websocket [(some "a", SendResult.err), (some "b", SendResult.ok)] =
      ["a", "b"] :=
  rfl

/-- Claim C2, amended: when forwarding a received value fails, the failure is
logged and the loop continues with the next wait-for-change round — the
handler goes on attempting every subsequent value; the loop terminates (and
the subscription is dropped) only when changed() returns an error, i.e. when
the sender side of the channel is gone. The failure is scoped to the one
handler by construction: each handler's deliveries are a function of its own
event schedule alone. -/
theorem send_failure_logged_loop_continues (v : String) (sr : SendResult)
    (rest : List (Option String × SendResult)) :
    handle_websocket ((some v, sr) :: rest) = v :: handle_websocket rest
    ∧ handle_websocket ((none, sr) :: rest) = [] :=
  ⟨rfl, rfl⟩

/-- Claim C3: previous_mtime starts at the Unix-epoch sentinel
(src/main.rs 98), so on the first tick any real (post-epoch, hence non-zero)
modification time differs from it and a render-and-publish happens; if the
file's modification time never changes for the rest of the run, no further
value is ever published: the whole run publishes exactly the one initial
render. The schedule fixes the observed mtime `t` for every tick while the
contents may be read arbitrarily. -/
theorem sentinel_first_tick_publishes_once (t : Nat) (c : String)
    (cs : List String) (h : t ≠ sentinelMtime) :
    check_file_run sentinelMtime
        ((c :: cs).map fun x => FileObs.snap t (some x)) =
      ([renderHtml c], some t) := by
  have hne : sentinelMtime ≠ t := fun hEq => h hEq.symm
  simp [check_file_run, check_file_tick, render_markdown, hne,
    check_file_run_const t cs]

/-- Witness for claim C3: a two-tick run with constant mtime 5 publishes
exactly once. -/
theorem sentinel_first_tick_publishes_once_witness :
    (5 : Nat) ≠ sentinelMtime
    ∧ check_file_run sentinelMtime
          ((["# Hello", "# Hello"] : List String).map fun x =>
            FileObs.snap 5 (some x)) =
        ([renderHtml "# Hello"], some 5) :=
  ⟨by decide,
    sentinel_first_tick_publishes_once 5 "# Hello" ["# Hello"] (by decide)⟩

/-- Claim C4: on a tick whose reads succeed, the detector publishes if and
only if the observed modification time differs from previous_mtime
(src/main.rs 104): when it is unchanged the tick is a no-op (state kept,
nothing published); when it differs, the render cycle runs and publishes the
rendered content — for every content string `c`, including one identical to
what was rendered before, since the comparison looks only at timestamps. -/
theorem publish_iff_mtime_changed (st m : Nat) (c : String) :
    (check_file_tick st (FileObs.snap m (some c)) = TickOutcome.cont st none
      ↔ m = st)
    ∧ (m ≠ st →
        check_file_tick st (FileObs.snap m (some c)) =
          TickOutcome.cont m (some (renderHtml c))) := by
  by_cases hm : st = m
  · subst hm
    simp [check_file_tick]
  · have hne : m ≠ st := fun e => hm e.symm
    constructor
    · simp [check_file_tick, render_markdown, hm, hne]
    · intro _
      simp [check_file_tick, render_markdown, hm]

/-- Witness for claim C4: at previous_mtime 0 an observed mtime 5 publishes
the render of the content; at previous_mtime 3 an observed mtime 3 is a
no-op. -/
theorem publish_iff_mtime_changed_witness :
    check_file_tick 0 (FileObs.snap 5 (some "x")) =
      TickOutcome.cont 5 (some (renderHtml "x"))
    ∧ check_file_tick 3 (FileObs.snap 3 (some "x")) = TickOutcome.cont 3 none :=
  ⟨(publish_iff_mtime_changed 0 5 "x").2 (by decide),
    ((publish_iff_mtime_changed 3 3 "x").1).mpr rfl⟩

/-- Claim C5: after startup, a failure to read the file's metadata or
modification time (src/main.rs 101-102), or to open and read its content
once a change was seen (src/main.rs 83-85, propagated through 105), makes
check_file return the error: the poll loop stops, nothing is published on
that run, and the task wrapper in main logs the error and terminates the
process with the non-zero status 1. -/
theorem file_access_error_fatal (st m : Nat) (rest : List FileObs)
    (h : st ≠ m) :
    check_file_run st (FileObs.metaErr :: rest) = ([], none)
    ∧ detectorExitCode st (FileObs.metaErr :: rest) = some 1
    ∧ check_file_run st (FileObs.snap m none :: rest) = ([], none)
    ∧ detectorExitCode st (FileObs.snap m none :: rest) = some 1 := by
  have h1 : check_file_tick st (FileObs.snap m none) = TickOutcome.fatal := by
    simp [check_file_tick, render_markdown, h]
  refine ⟨?_, ?_, ?_, ?_⟩
  · simp [check_file_run, check_file_tick]
  · simp [detectorExitCode, check_file_run, check_file_tick]
  · simp [check_file_run, h1]
  · simp [detectorExitCode, check_file_run, h1]

/-- Witness for claim C5: the file disappearing on the next tick (metadata
read fails at previous_mtime 7) and an unreadable content read (mtime 9)
both kill the process with status 1. -/
theorem file_access_error_fatal_witness :
    (7 : Nat) ≠ 9
    ∧ (check_file_run 7 [FileObs.metaErr] = ([], none)
      ∧ detectorExitCode 7 [FileObs.metaErr] = some 1
      ∧ check_file_run 7 [FileObs.snap 9 none] = ([], none)
      ∧ detectorExitCode 7 [FileObs.snap 9 none] = some 1) :=
  ⟨by decide, file_access_error_fatal 7 9 [] (by decide)⟩

/-! ### Broadcast-channel ordering -/

/-- Sampling a list at positions that are strictly increasing, at least `k`
and in bounds yields a sublist of the list with its first `k` elements
dropped. -/
theorem map_getD_sublist_from {α : Type} (d : α) :
    ∀ (vs : List Nat) (l : List α) (k : Nat), vs.Chain' (· < ·) →
      (∀ v ∈ vs, k ≤ v ∧ v < l.length) →
      ((vs.map fun v => l.getD v d).Sublist (l.drop k)) := by
  intro vs
  induction vs with
  | nil =>
    intro l k _ _
    simp
  | cons v vs1 ih =>
    intro l k hch hbd
    have hv : v < l.length := (hbd v (List.mem_cons_self v vs1)).2
    have hpair : (v :: vs1).Pairwise (· < ·) := List.chain'_iff_pairwise.mp hch
    have hvlt : ∀ w ∈ vs1, v < w := fun w hw => (List.pairwise_cons.mp hpair).1 w hw
    have hch1 : vs1.Chain' (· < ·) :=
      List.chain'_iff_pairwise.mpr (List.pairwise_cons.mp hpair).2
    have htail : ((vs1.map fun w => l.getD w d).Sublist (l.drop (v + 1))) := by
      apply ih l (v + 1) hch1
      intro w hw
      exact ⟨hvlt w hw, (hbd w (List.mem_cons_of_mem v hw)).2⟩
    have hdropv : l.drop v = l[v] :: l.drop (v + 1) := List.drop_eq_getElem_cons hv
    have hhead : ((l.getD v d :: vs1.map fun w => l.getD w d).Sublist (l.drop v)) := by
      rw [hdropv, List.getD_eq_getElem l d hv]
      exact List.Sublist.cons₂ _ htail
    have hdd : l.drop v = (l.drop k).drop (v - k) := by
      rw [List.drop_drop]
      congr 1
      have hkv : k ≤ v := (hbd v (List.mem_cons_self v vs1)).1
      omega
    have hfin : ((l.drop v).Sublist (l.drop k)) := by
      rw [hdd]
      exact List.drop_sublist _ _
    exact hhead.trans hfin

/-- Sampling a list at strictly increasing in-bounds positions yields a
sublist of it. -/
theorem map_getD_sublist {α : Type} (d : α) (vs : List Nat) (l : List α)
    (hch : vs.Chain' (· < ·)) (hbd : ∀ v ∈ vs, v < l.length) :
    ((vs.map fun v => l.getD v d).Sublist l) := by
  have h := map_getD_sublist_from d vs l 0 hch fun v hv => ⟨Nat.zero_le v, hbd v hv⟩
  simpa using h

/-- Claim C6: a reader of the watch channel samples the publish history at
strictly increasing positions, so (i) its observations are pairwise ordered
by publication order — it never observes an older published value after a
newer one, though positions may be skipped (last-value-wins) — and (ii) the
sequence of values it observes is a sublist of the publish history itself;
since every reader's observation is a sublist of the one shared history, all
readers observe published values in the same relative order. -/
theorem broadcast_order_preserved (pubs : List String) (vs : List Nat)
    (h : validObservation pubs vs) :
    vs.Pairwise (· < ·) ∧ (observedValues pubs vs).Sublist pubs :=
  ⟨List.chain'_iff_pairwise.mp h.1,
    map_getD_sublist "" vs pubs h.1 h.2⟩

/-- Witness for claim C6: a reader that saw the first and third of three
published values observed them in order and as a sublist of the history. -/
theorem broadcast_order_preserved_witness :
    validObservation ["a", "b", "c"] [0, 2]
    ∧ (([0, 2] : List Nat).Pairwise (· < ·)
      ∧ (observedValues ["a", "b", "c"] [0, 2]).Sublist ["a", "b", "c"]) :=
  ⟨⟨by simp [List.chain'_cons], by decide⟩,
    broadcast_order_preserved ["a", "b", "c"] [0, 2]
      ⟨by simp [List.chain'_cons], by decide⟩⟩

/-! ### Startup -/

/-- Claim C7: if the ip/port pair does not parse as a socket address or the
watched path does not exist, main returns an error before the channel, the
poll task or the listener are created (src/main.rs 150-157 precede 161-189),
so the process exits with the non-zero status 1 without serving; and the
option defaults are the loopback address 127.0.0.1 and port 8080. -/
theorem startup_validation (parseOk fileExists : Bool) (host : String)
    (h : parseOk = false ∨ fileExists = false) :
    (∃ msg, mainStartup parseOk fileExists host = StartupOutcome.startupError msg)
    ∧ (∀ h2, mainStartup parseOk fileExists host ≠ StartupOutcome.serving h2)
    ∧ startupExitCode (mainStartup parseOk fileExists host) = some 1
    ∧ defaultIp = "127.0.0.1" ∧ defaultPort = "8080" := by
  rcases h with h | h
  · subst h
    exact ⟨⟨"could not parse ip/port", rfl⟩, fun h2 => by simp [mainStartup],
      rfl, rfl, rfl⟩
  · subst h
    cases parseOk with
    | false =>
      exact ⟨⟨"could not parse ip/port", rfl⟩, fun h2 => by simp [mainStartup],
        rfl, rfl, rfl⟩
    | true =>
      exact ⟨⟨"file does not exist", rfl⟩, fun h2 => by simp [mainStartup],
        rfl, rfl, rfl⟩

/-- Witness for claim C7: an unparsable address with an existing file stops
startup with exit status 1. -/
theorem startup_validation_witness :
    (false = false ∨ true = false)
    ∧ ((∃ msg, mainStartup false true "localhost:8080" =
          StartupOutcome.startupError msg)
      ∧ (∀ h2, mainStartup false true "localhost:8080" ≠ StartupOutcome.serving h2)
      ∧ startupExitCode (mainStartup false true "localhost:8080") = some 1
      ∧ defaultIp = "127.0.0.1" ∧ defaultPort = "8080") :=
  ⟨Or.inl rfl, startup_validation false true "localhost:8080" (Or.inl rfl)⟩

/-! ### Rendering scenarios -/

/-- Claim C8, counterexample. pulldown-cmark's HTML writer closes the
heading tag with a newline: the rendered markup for the content "# Hello" is
the string containing a trailing newline, not the exact string
without one that the claim states. -/
theorem hello_heading_cex :
    renderHtml "# Hello" = "<h1>Hello</h1>\n"
    ∧ renderHtml "# Hello" ≠ "<h1>Hello</h1>" := by
  refine ⟨rfl, ?_⟩
  decide

/-- Claim C8, amended: for the content "# Hello" the renderer produces the
heading markup followed by the converter's trailing newline,
"<h1>Hello</h1>\n"; the first poll tick publishes exactly that string, and a
connected handler whose next change observes it forwards exactly that
string to its client. -/
theorem hello_heading_published (t : Nat) (h : t ≠ sentinelMtime) :
    renderHtml "# Hello" = "<h1>Hello</h1>\n"
    ∧ check_file_run sentinelMtime [FileObs.snap t (some "# Hello")] =
        (["<h1>Hello</h1>\n"], some t)
    ∧ handle_websocket [(some "<h1>Hello</h1>\n", SendResult.ok)] =
        ["<h1>Hello</h1>\n"] := by
  have hne : sentinelMtime ≠ t := fun e => h e.symm
  refine ⟨rfl, ?_, rfl⟩
  have hhtml : renderHtml "# Hello" = "<h1>Hello</h1>\n" := rfl
  simp [check_file_run, check_file_tick, render_markdown, hne, hhtml]

/-- Witness for the amended claim C8 with observed mtime 1. -/
theorem hello_heading_published_witness :
    (1 : Nat) ≠ sentinelMtime
    ∧ (renderHtml "# Hello" = "<h1>Hello</h1>\n"
      ∧ check_file_run sentinelMtime [FileObs.snap 1 (some "# Hello")] =
          (["<h1>Hello</h1>\n"], some 1)
      ∧ handle_websocket [(some "<h1>Hello</h1>\n", SendResult.ok)] =
          ["<h1>Hello</h1>\n"]) :=
  ⟨by decide, hello_heading_published 1 (by decide)⟩

/-- Claim C9: the conversion step is deterministic and a function of the
input text alone — it is embedded as the pure function renderHtml, whose
output on equal inputs is equal; the Rust conversion (src/main.rs 87-89)
touches nothing but the input string. -/
theorem render_deterministic (s t : String) (h : s = t) :
    renderHtml s = renderHtml t :=
  congrArg renderHtml h

/-- Witness for claim C9 on the content "# Hello". -/
theorem render_deterministic_witness :
    "# Hello" = "# Hello" ∧ renderHtml "# Hello" = renderHtml "# Hello" :=
  ⟨rfl, render_deterministic "# Hello" "# Hello" rfl⟩

/-! ### Subscription positioning -/

/-- Claim C10, counterexample. After one publish, a connecting client's
receiver is cloned from the startup receiver, whose watermark is still the
initial version — not the current one. Its first changed() therefore
resolves immediately, and the first message delivered is exactly the
Rendered Output that was current at subscription time, which the claim says
is never delivered. -/
theorem subscribe_gets_current_cex :
    firstMessage ["<h1>Hello</h1>\n"] (cloneReceiver initialReceiver) =
      some (currentValue ["<h1>Hello</h1>\n"])
    ∧ currentValue ["<h1>Hello</h1>\n"] = "<h1>Hello</h1>\n" :=
  ⟨rfl, rfl⟩

/-- Claim C10, amended: a connection's receiver is a clone of the receiver
created at startup, which has seen only the channel's initial value; hence
once at least one publish has happened, a newly connected client immediately
receives the value current at subscription time rather than waiting for the
next publish. What does hold of the claim: a client connecting before the
first publish blocks until it, and a delivered first message is always the
latest published value — the channel's initial empty string is never
delivered. -/
theorem subscribe_clone_semantics (pubs : List String) (h : pubs ≠ []) :
    firstMessage pubs (cloneReceiver initialReceiver) = some (currentValue pubs)
    ∧ firstMessage [] (cloneReceiver initialReceiver) = none
    ∧ ∀ r v, firstMessage pubs r = some v → v = currentValue pubs := by
  refine ⟨?_, rfl, ?_⟩
  · have hlen : 0 < pubs.length := List.length_pos.mpr h
    simp [firstMessage, cloneReceiver, initialReceiver, hlen]
  · intro r v hv
    by_cases hlt : r.seen < pubs.length
    · simp [firstMessage, hlt] at hv
      exact hv.symm
    · simp [firstMessage, hlt] at hv

/-- Witness for the amended claim C10 after a single publish. -/
theorem subscribe_clone_semantics_witness :
    (["<h1>Hello</h1>\n"] : List String) ≠ []
    ∧ (firstMessage ["<h1>Hello</h1>\n"] (cloneReceiver initialReceiver) =
        some (currentValue ["<h1>Hello</h1>\n"])
      ∧ firstMessage [] (cloneReceiver initialReceiver) = none
      ∧ ∀ r v, firstMessage ["<h1>Hello</h1>\n"] r = some v →
          v = currentValue ["<h1>Hello</h1>\n"]) :=
  ⟨by decide, subscribe_clone_semantics ["<h1>Hello</h1>\n"] (by decide)⟩

end Mdr
